import Mathlib

/-!
# azcfg-lab: the refresh / report loops of `main.go`

A shallow embedding of `src/main.go`.

* Pure parts (`config.String`, `newConfig`, the body of `main`) are Lean functions.
* `run` starts two goroutines that share `cfg`, `mu` and `ctx`.  It is embedded as a
  small-step transition system `step : Sys → Act → Option Sys` over program counters
  that name the source lines; an `Act` is either one atomic step of a goroutine or an
  input of the environment (a signal, a ticker firing, the outcome of the credential
  call, the outcome of `azcfg.Parse`).  `none` means the step cannot be taken in that
  state (the goroutine is elsewhere, or the call blocks).
* The collaborators that are not part of the repository are modelled by their
  documented contracts: `sync.RWMutex`, `errgroup.Group`, the `select` statement
  (any ready case may be chosen), `time.Ticker` (a channel of capacity one) and the
  `%s` / `%w` / `%v` verbs of `fmt`.
-/

namespace AzcfgLab

/-! ## Errors -/

/-- A Go `error` value: either one produced by a collaborator, or the `*fmt.wrapError`
built by `fmt.Errorf` with a `%w` verb (its full message and the wrapped error). -/
inductive GoError where
  | external (msg : String)
  | wrapError (msg : String) (err : GoError)
deriving DecidableEq, Repr

/-- The `Error()` method. -/
def GoError.Error : GoError → String
  | .external msg => msg
  | .wrapError msg _ => msg

/-- The call `fmt.Errorf(pfx + "%w", err)`, the only shape of `fmt.Errorf` in `main.go`. -/
def Errorf (pfx : String) (err : GoError) : GoError :=
  .wrapError (pfx ++ err.Error) err

/-! ## The configuration snapshot -/

/-- The struct `config` (lines 78-84); the zero value has four empty strings. -/
structure config where
  KeyVaultFoo : String := ""
  KeyVaultBar : String := ""
  AppConfigFoo : String := ""
  AppConfigBar : String := ""
deriving DecidableEq, Repr

/-- The method `(*config).String` (lines 86-89) on a non-nil receiver. -/
def config.String (cfg : config) : String :=
  "\tKeyVaultFoo=" ++ cfg.KeyVaultFoo ++ "\n\tKeyVaultBar=" ++ cfg.KeyVaultBar
    ++ "\n\tAppConfigFoo=" ++ cfg.AppConfigFoo ++ "\n\tAppConfigBar=" ++ cfg.AppConfigBar

/-- The verb `%s` of `fmt` applied to a `*config`: the `String` method of a non-nil
pointer; for a nil pointer the method dereferences nil, `fmt` recovers and prints
`<nil>`. -/
def verbS : Option config → String
  | some cfg => cfg.String
  | none => "<nil>"

/-- The text written by `fmt.Printf("Config:\n%s\n", cfg)` (line 69). -/
def reportText (cfg : Option config) : String :=
  "Config:\n" ++ verbS cfg ++ "\n"

/-- The function `newConfig` (lines 91-102).  `parse` stands for the call
`azcfg.Parse(ctx, cfg, ...)`: from the struct it is handed it yields the struct as it
left it and its error result.  A `*config` is an `Option config`, `nil` being `none`. -/
def newConfig (parse : config → config × Option GoError) : Option config × Option GoError :=
  let cfg : config := {}
  let (cfg, err) := parse cfg
  match err with
  | some err => (none, some (Errorf "failed to parse config: " err))
  | none => (some cfg, none)

/-! ## `main` -/

/-- What the process leaves behind: the bytes on standard error and the exit status. -/
structure ProcessOutcome where
  stderr : String
  exitCode : Nat
deriving DecidableEq, Repr

/-- The function `main` (lines 18-24), given the result of `run`. -/
def main (err : Option GoError) : ProcessOutcome :=
  match err with
  | some err => { stderr := err.Error ++ "\n", exitCode := 1 }
  | none => { stderr := "", exitCode := 0 }

/-! ## Shared state of `run` -/

/-- The state of a `sync.RWMutex`: whether a writer holds it and how many readers do. -/
structure RWMutex where
  writer : Bool := false
  readers : Nat := 0
deriving DecidableEq, Repr

/-- The call `mu.Lock()`: returns once no writer and no reader holds the lock; `none` while
it blocks. -/
def RWMutex.Lock (mu : RWMutex) : Option RWMutex :=
  if mu.writer = false ∧ mu.readers = 0 then some { mu with writer := true } else none

/-- The call `mu.Unlock()`; `none` is the fatal error of unlocking an unlocked mutex. -/
def RWMutex.Unlock (mu : RWMutex) : Option RWMutex :=
  if mu.writer = true then some { mu with writer := false } else none

/-- The call `mu.RLock()`: returns once no writer holds the lock; `none` while it blocks.
(A real `RWMutex` also holds new readers back while a writer is waiting; leaving that out
only adds behaviours.) -/
def RWMutex.RLock (mu : RWMutex) : Option RWMutex :=
  if mu.writer = false then some { mu with readers := mu.readers + 1 } else none

/-- The call `mu.RUnlock()`; `none` is the fatal error of an unmatched `RUnlock`. -/
def RWMutex.RUnlock (mu : RWMutex) : Option RWMutex :=
  if 0 < mu.readers then some { mu with readers := mu.readers - 1 } else none

/-- Where the first goroutine (lines 39-58, the Refresher) stands. -/
inductive RefresherPc where
  /-- The goroutine has not been launched. -/
  | notStarted
  /-- Line 44: waiting in `select`. -/
  | select
  /-- Line 49: the ticker case was taken, about to call `mu.Lock()`. -/
  | lock
  /-- Line 50: `mu.Lock()` has returned, about to run `cfg, err = newConfig(ctx, cred)`. -/
  | fetch
  /-- Line 51: about to call `mu.Unlock()`, the local `err` as assigned on line 50. -/
  | unlock (err : Option GoError)
  /-- Line 53: about to test `err != nil`. -/
  | check (err : Option GoError)
  /-- The goroutine function has returned `err`. -/
  | returned (err : Option GoError)
deriving DecidableEq, Repr

/-- Where the second goroutine (lines 60-73, the Reporter) stands. -/
inductive ReporterPc where
  /-- The goroutine has not been launched. -/
  | notStarted
  /-- Line 64: waiting in `select`. -/
  | select
  /-- Line 68: the ticker case was taken, about to call `mu.RLock()`. -/
  | rlock
  /-- Line 69: `mu.RLock()` has returned, about to call `fmt.Printf`. -/
  | print
  /-- Line 70: about to call `mu.RUnlock()`. -/
  | runlock
  /-- The goroutine function has returned `err`. -/
  | returned (err : Option GoError)
deriving DecidableEq, Repr

/-- Where the body of `run` itself stands. -/
inductive RunPc where
  /-- Line 30: about to call `azidentity.NewDefaultAzureCredential`. -/
  | credential
  /-- Line 75: both goroutines launched, inside `g.Wait()`. -/
  | wait
  /-- The function `run` has returned `err`. -/
  | returned (err : Option GoError)
deriving DecidableEq, Repr

/-- The two tasks handed to `g.Go`. -/
inductive Task where
  | refresher
  | reporter
deriving DecidableEq, Repr

/-- What the program does that an observer can see, recorded as it happens. -/
inductive Event where
  /-- The call `mu.Lock()` returned. -/
  | lock
  /-- The call `newConfig(ctx, cred)` ran and returned this pair. -/
  | fetch (cfg : Option config) (err : Option GoError)
  /-- The call `mu.Unlock()` returned. -/
  | unlock
  /-- The call `mu.RLock()` returned. -/
  | rlock
  /-- The call `fmt.Printf` read this value of `cfg` and wrote this text to standard output. -/
  | emit (cfg : Option config) (text : String)
  /-- The call `mu.RUnlock()` returned. -/
  | runlock
  /-- A goroutine function returned this error to the group. -/
  | taskReturn (task : Task) (err : Option GoError)
deriving DecidableEq, Repr

/-- The state of one execution of `run`. -/
structure Sys where
  /-- Program counter of the body of `run`. -/
  runPc : RunPc := .credential
  /-- Whether `ctx.Done()` is closed (by a signal, or by the group on the first error). -/
  cancelled : Bool := false
  /-- The shared variable `cfg` (line 35); `none` is the nil pointer.  Before line 35 runs
  the variable does not exist and the field is left at `none`. -/
  cfg : Option config := none
  /-- The shared lock `mu` (line 36). -/
  mu : RWMutex := {}
  /-- The field `err` of the `errgroup.Group`: the first non-nil error returned by a task. -/
  gErr : Option GoError := none
  /-- Program counter of the Refresher. -/
  refresher : RefresherPc := .notStarted
  /-- Program counter of the Reporter. -/
  reporter : ReporterPc := .notStarted
  /-- Whether a tick is waiting in the Refresher's `ticker.C` (a channel of capacity one). -/
  refTick : Bool := false
  /-- Whether a tick is waiting in the Reporter's `ticker.C`. -/
  repTick : Bool := false
  /-- The events so far, most recent first. -/
  trace : List Event := []
deriving DecidableEq, Repr

/-- The state in which `run` is entered. -/
def Sys.init : Sys := {}

/-- Append an event to the record. -/
def Sys.record (s : Sys) (ev : Event) : Sys :=
  { s with trace := ev :: s.trace }

/-- What `errgroup.Group.Go` does when the task function returns `err`: the first non-nil
error is stored in the group and cancels the group's context. -/
def Sys.taskDone (s : Sys) (task : Task) (err : Option GoError) : Sys :=
  let s := s.record (.taskReturn task err)
  match err, s.gErr with
  | some e, none => { s with gErr := some e, cancelled := true }
  | _, _ => s

/-- One atomic step of the system: a step of `run`, of one of its goroutines, or an input
from outside. -/
inductive Act where
  /-- SIGINT or SIGTERM arrives; `signal.NotifyContext` cancels the context. -/
  | signal
  /-- Line 30 runs; `err` is the error result of `NewDefaultAzureCredential`. -/
  | credential (err : Option GoError)
  /-- The Refresher's ticker delivers a tick. -/
  | refTickFire
  /-- The Reporter's ticker delivers a tick. -/
  | repTickFire
  /-- Refresher, line 45: `select` takes `<-ctx.Done()`. -/
  | refSelectDone
  /-- Refresher, line 47: `select` takes `<-ticker.C`. -/
  | refSelectTick
  /-- Refresher, line 49: `mu.Lock()` returns. -/
  | refLock
  /-- Refresher, line 50: `cfg, err = newConfig(ctx, cred)`, with this behaviour of
  `azcfg.Parse`. -/
  | refFetch (parse : config → config × Option GoError)
  /-- Refresher, line 51: `mu.Unlock()`. -/
  | refUnlock
  /-- Refresher, lines 53-55: the test of `err`. -/
  | refCheck
  /-- Reporter, line 65: `select` takes `<-ctx.Done()`. -/
  | repSelectDone
  /-- Reporter, line 67: `select` takes `<-ticker.C`. -/
  | repSelectTick
  /-- Reporter, line 68: `mu.RLock()` returns. -/
  | repRLock
  /-- Reporter, line 69: `fmt.Printf("Config:\n%s\n", cfg)`. -/
  | repPrint
  /-- Reporter, line 70: `mu.RUnlock()`. -/
  | repRUnlock
  /-- Line 75: `g.Wait()` returns. -/
  | wait

/-- The transition function of `run` (lines 26-76).  `none`: the step is not possible in
this state. -/
def step (s : Sys) : Act → Option Sys
  | .signal =>
    match s.runPc with
    | .returned _ => none
    | _ => some { s with cancelled := true }
  | .credential err =>
    match s.runPc with
    | .credential =>
      match err with
      | some err =>
        some { s with runPc := .returned (some (Errorf "failed to create azure credential: " err)) }
      | none =>
        some { s with cfg := some {}, mu := {}, refresher := .select, reporter := .select,
                      runPc := .wait }
    | _ => none
  | .refTickFire =>
    match s.refresher with
    | .notStarted => none
    | .returned _ => none
    | _ => some { s with refTick := true }
  | .repTickFire =>
    match s.reporter with
    | .notStarted => none
    | .returned _ => none
    | _ => some { s with repTick := true }
  | .refSelectDone =>
    match s.refresher with
    | .select =>
      if s.cancelled = true then
        some ({ s with refresher := .returned none }.taskDone .refresher none)
      else none
    | _ => none
  | .refSelectTick =>
    match s.refresher with
    | .select =>
      if s.refTick = true then some { s with refTick := false, refresher := .lock } else none
    | _ => none
  | .refLock =>
    match s.refresher with
    | .lock =>
      match s.mu.Lock with
      | some mu => some ({ s with mu := mu, refresher := .fetch }.record .lock)
      | none => none
    | _ => none
  | .refFetch parse =>
    match s.refresher with
    | .fetch =>
      let (cfg, err) := newConfig parse
      some ({ s with cfg := cfg, refresher := .unlock err }.record (.fetch cfg err))
    | _ => none
  | .refUnlock =>
    match s.refresher with
    | .unlock err =>
      match s.mu.Unlock with
      | some mu => some ({ s with mu := mu, refresher := .check err }.record .unlock)
      | none => none
    | _ => none
  | .refCheck =>
    match s.refresher with
    | .check err =>
      match err with
      | some err =>
        let ret := Errorf "failed to create config: " err
        some ({ s with refresher := .returned (some ret) }.taskDone .refresher (some ret))
      | none => some { s with refresher := .select }
    | _ => none
  | .repSelectDone =>
    match s.reporter with
    | .select =>
      if s.cancelled = true then
        some ({ s with reporter := .returned none }.taskDone .reporter none)
      else none
    | _ => none
  | .repSelectTick =>
    match s.reporter with
    | .select =>
      if s.repTick = true then some { s with repTick := false, reporter := .rlock } else none
    | _ => none
  | .repRLock =>
    match s.reporter with
    | .rlock =>
      match s.mu.RLock with
      | some mu => some ({ s with mu := mu, reporter := .print }.record .rlock)
      | none => none
    | _ => none
  | .repPrint =>
    match s.reporter with
    | .print => some ({ s with reporter := .runlock }.record (.emit s.cfg (reportText s.cfg)))
    | _ => none
  | .repRUnlock =>
    match s.reporter with
    | .runlock =>
      match s.mu.RUnlock with
      | some mu => some ({ s with mu := mu, reporter := .select }.record .runlock)
      | none => none
    | _ => none
  | .wait =>
    match s.runPc, s.refresher, s.reporter with
    | .wait, .returned _, .returned _ => some { s with runPc := .returned s.gErr }
    | _, _, _ => none

/-- Run a schedule from a state; `none` if some step of it is not possible. -/
def exec (s : Sys) : List Act → Option Sys
  | [] => some s
  | a :: as =>
    match step s a with
    | some s' => exec s' as
    | none => none

/-- The states some schedule leads to from the entry of `run`. -/
def Reachable (s : Sys) : Prop := ∃ acts, exec Sys.init acts = some s

/-! ## Vocabulary of the properties -/

/-- The write critical section of the Refresher: after `mu.Lock()` has returned and before
`mu.Unlock()` has (lines 50-51). -/
def RefresherPc.holdsLock : RefresherPc → Bool
  | .fetch => true
  | .unlock _ => true
  | _ => false

/-- The read critical section of the Reporter: after `mu.RLock()` has returned and before
`mu.RUnlock()` has (lines 69-70). -/
def ReporterPc.holdsRLock : ReporterPc → Bool
  | .print => true
  | .runlock => true
  | _ => false

/-- The errors the tasks returned to the group, in the order they returned them. -/
def taskResults : List Event → List (Option GoError)
  | [] => []
  | .taskReturn _ err :: pre => taskResults pre ++ [err]
  | _ :: pre => taskResults pre

/-- The first error of a list of results, `none` if there is none. -/
def firstError : List (Option GoError) → Option GoError
  | [] => none
  | some e :: _ => some e
  | none :: rest => firstError rest

/-- How many times `newConfig` has run. -/
def fetchCount : List Event → Nat
  | [] => 0
  | .fetch _ _ :: pre => fetchCount pre + 1
  | _ :: pre => fetchCount pre

/-- How many times `mu.Lock()` has returned. -/
def lockCount : List Event → Nat
  | [] => 0
  | .lock :: pre => lockCount pre + 1
  | _ :: pre => lockCount pre

/-- Program counters and the lock agree. -/
structure InvMu (s : Sys) : Prop where
  writer : s.mu.writer = s.refresher.holdsLock
  readers : s.mu.readers = if s.reporter.holdsRLock then 1 else 0
  excl : s.refresher.holdsLock = true → s.reporter.holdsRLock = false
  started : s.refresher = .notStarted ↔ s.reporter = .notStarted
  cred : s.runPc = .credential → s.refresher = .notStarted
  wait : s.runPc = .wait → s.refresher ≠ .notStarted
  fresh : s.refresher = .notStarted → s.trace = [] ∧ s.gErr = none

/-- The result a task has handed to the group, if it has returned. -/
def RefresherPc.result : RefresherPc → List (Option GoError)
  | .returned err => [err]
  | _ => []

/-- The result a task has handed to the group, if it has returned. -/
def ReporterPc.result : ReporterPc → List (Option GoError)
  | .returned err => [err]
  | _ => []

/-- The value the record says `cfg` holds: what the latest run of `newConfig` returned, the
snapshot of line 35 if it never ran. -/
def installed : List Event → Option config
  | [] => some {}
  | .fetch cfg _ :: _ => cfg
  | _ :: pre => installed pre

/-- Every read recorded rendered the value `cfg` held at that moment. -/
def wholeReads : List Event → Prop
  | [] => True
  | .emit cfg text :: pre => (cfg = installed pre ∧ text = reportText cfg) ∧ wholeReads pre
  | _ :: pre => wholeReads pre

/-- The group, the tasks and the result of `run` agree. -/
structure InvGroup (s : Sys) : Prop where
  gerr : s.gErr = firstError (taskResults s.trace)
  results : taskResults s.trace = s.refresher.result ++ s.reporter.result ∨
    taskResults s.trace = s.reporter.result ++ s.refresher.result
  repNone : ∀ r, s.reporter = .returned r → r = none
  refErr : s.gErr = match s.refresher with
    | .returned r => r
    | _ => none
  ret : ∀ r, s.runPc = .returned r → s.refresher ≠ .notStarted →
    r = s.gErr ∧ (∃ r1, s.refresher = .returned r1) ∧ (∃ r2, s.reporter = .returned r2)

/-- The shared variable and the record agree. -/
structure InvCfg (s : Sys) : Prop where
  cfg : s.refresher ≠ .notStarted → s.cfg = installed s.trace
  reads : wholeReads s.trace
  locks : lockCount s.trace = fetchCount s.trace + if s.refresher = .fetch then 1 else 0
  shapes : ∀ cfg err, Event.fetch cfg err ∈ s.trace →
    (∃ c, cfg = some c ∧ err = none) ∨ (cfg = none ∧ ∃ e, err = some e)

/-- All the invariants together. -/
structure Inv (s : Sys) : Prop where
  mu : InvMu s
  group : InvGroup s
  cfg : InvCfg s

/-- The states before line 30 has run. -/
def Pre (s : Sys) : Prop :=
  s.runPc = .credential ∧ s.refresher = .notStarted ∧ s.reporter = .notStarted ∧
    s.trace = [] ∧ s.cfg = none ∧ s.mu = {}

/-- The states after line 30 failed with `e` and `run` returned on line 32. -/
def Dead (e : GoError) (s : Sys) : Prop :=
  s.runPc = .returned (some (Errorf "failed to create azure credential: " e)) ∧
    s.refresher = .notStarted ∧ s.reporter = .notStarted ∧ s.trace = [] ∧ s.cfg = none ∧
    s.mu = {}

/-- The Refresher is past a fetch that failed with `e`, `n` fetches have run: it is on its
way out of the loop, or out. -/
structure Failing (e : GoError) (n : Nat) (s : Sys) : Prop where
  inv : Inv s
  count : fetchCount s.trace = n
  pc : s.refresher = .unlock (some (Errorf "failed to parse config: " e)) ∨
    s.refresher = .check (some (Errorf "failed to parse config: " e)) ∨
    s.refresher = .returned
      (some (Errorf "failed to create config: " (Errorf "failed to parse config: " e)))

/-- The steps the Reporter takes, once the context is cancelled and it goes for
`ctx.Done()` at its next `select`, from where it stands to its return. -/
def ReporterPc.drain : ReporterPc → List Act
  | .rlock => [.repRLock, .repPrint, .repRUnlock, .repSelectDone]
  | .print => [.repPrint, .repRUnlock, .repSelectDone]
  | .runlock => [.repRUnlock, .repSelectDone]
  | .select => [.repSelectDone]
  | _ => []

/-! ## Sample executions -/

/-- The snapshot of the rendering example. -/
def abcd : config :=
  { KeyVaultFoo := "a", KeyVaultBar := "b", AppConfigFoo := "c", AppConfigBar := "d" }

/-- A run of `azcfg.Parse` that fills all four fields. -/
def parseOk : config → config × Option GoError :=
  fun _ => (abcd, none)

/-- A run of `azcfg.Parse` that fails after it has filled one field. -/
def parseFail : config → config × Option GoError :=
  fun cfg => ({ cfg with KeyVaultFoo := "a" }, some (.external "boom"))

/-- What `newConfig` returns for `parseFail`. -/
def boomParse : GoError := Errorf "failed to parse config: " (.external "boom")

/-- What the Refresher returns for `parseFail`. -/
def boomConfig : GoError := Errorf "failed to create config: " boomParse

/-- The Refresher, on its first tick, holds the lock and is about to fetch. -/
def atFetch : Sys :=
  { runPc := .wait, cfg := some {}, mu := { writer := true }, refresher := .fetch,
    reporter := .select, trace := [.lock] }

/-- The schedule that leads to `atFetch`. -/
def toFetch : List Act := [.credential none, .refTickFire, .refSelectTick, .refLock]

/-- The state `atFetch` after the fetch failed. -/
def afterFailedFetch : Sys :=
  { runPc := .wait, cfg := none, mu := { writer := true }, refresher := .unlock (some boomParse),
    reporter := .select, trace := [.fetch none (some boomParse), .lock] }

/-- The whole run in which the first fetch fails. -/
def failedRun : Sys :=
  { runPc := .returned (some boomConfig), cancelled := true, cfg := none, gErr := some boomConfig,
    refresher := .returned (some boomConfig), reporter := .returned none,
    trace := [.taskReturn .reporter none, .taskReturn .refresher (some boomConfig), .unlock,
      .fetch none (some boomParse), .lock] }

/-- The schedule that leads to `failedRun`. -/
def toFailedRun : List Act :=
  [.credential none, .refTickFire, .refSelectTick, .refLock, .refFetch parseFail, .refUnlock,
    .refCheck, .repSelectDone, .wait]

/-- The signal has fired while a tick of the Refresher is pending. -/
def cancelledWithTick : Sys :=
  { runPc := .wait, cancelled := true, cfg := some {}, refresher := .select, reporter := .select,
    refTick := true }

/-- After one successful refresh the Reporter holds the read lock and is about to print. -/
def atPrint : Sys :=
  { runPc := .wait, cfg := some abcd, mu := { readers := 1 }, refresher := .select,
    reporter := .print, trace := [.rlock, .unlock, .fetch (some abcd) none, .lock] }

/-- The schedule that leads to `atPrint`. -/
def toPrint : List Act :=
  [.credential none, .refTickFire, .refSelectTick, .refLock, .refFetch parseOk, .refUnlock,
    .refCheck, .repTickFire, .repSelectTick, .repRLock]

/-- The state `atPrint` after the Reporter has printed. -/
def afterRead : Sys :=
  { runPc := .wait, cfg := some abcd, mu := { readers := 1 }, refresher := .select,
    reporter := .runlock,
    trace := [.emit (some abcd) (reportText (some abcd)), .rlock, .unlock,
      .fetch (some abcd) none, .lock] }

/-- The first line of `run` failed: this is the state `run` ends in. -/
def noCredential : Sys :=
  { runPc := .returned (some (Errorf "failed to create azure credential: " (.external "boom"))),
    cancelled := true }

/-! ## Invariants -/

theorem exec_inv (P : Sys → Prop) (hstep : ∀ s a s', P s → step s a = some s' → P s') :
    ∀ acts s s', P s → exec s acts = some s' → P s' := by
  intro acts
  induction acts with
  | nil =>
    intro s s' hP h
    simp only [exec, Option.some.injEq] at h
    exact h ▸ hP
  | cons a as ih =>
    intro s s' hP h
    simp only [exec] at h
    cases hs : step s a with
    | none => simp [hs] at h
    | some s1 =>
      rw [hs] at h
      exact ih s1 s' (hstep s a s1 hP hs) h

theorem reachable_inv (P : Sys → Prop) (h0 : P Sys.init)
    (hstep : ∀ s a s', P s → step s a = some s' → P s') : ∀ s, Reachable s → P s := by
  rintro s ⟨acts, h⟩
  exact exec_inv P hstep acts Sys.init s h0 h

theorem RWMutex.Lock_eq_some (mu mu' : RWMutex) :
    mu.Lock = some mu' ↔ mu.writer = false ∧ mu.readers = 0 ∧ mu' = { mu with writer := true } := by
  unfold RWMutex.Lock
  split
  · rename_i h
    simp only [Option.some.injEq]
    exact ⟨fun h' => ⟨h.1, h.2, h'.symm⟩, fun h' => h'.2.2.symm⟩
  · rename_i h
    simp only [reduceCtorEq, false_iff]
    exact fun h' => h ⟨h'.1, h'.2.1⟩

theorem RWMutex.Unlock_eq_some (mu mu' : RWMutex) :
    mu.Unlock = some mu' ↔ mu.writer = true ∧ mu' = { mu with writer := false } := by
  unfold RWMutex.Unlock
  split
  · rename_i h
    simp only [Option.some.injEq]
    exact ⟨fun h' => ⟨h, h'.symm⟩, fun h' => h'.2.symm⟩
  · rename_i h
    simp only [reduceCtorEq, false_iff]
    exact fun h' => h h'.1

theorem RWMutex.RLock_eq_some (mu mu' : RWMutex) :
    mu.RLock = some mu' ↔ mu.writer = false ∧ mu' = { mu with readers := mu.readers + 1 } := by
  unfold RWMutex.RLock
  split
  · rename_i h
    simp only [Option.some.injEq]
    exact ⟨fun h' => ⟨h, h'.symm⟩, fun h' => h'.2.symm⟩
  · rename_i h
    simp only [reduceCtorEq, false_iff]
    exact fun h' => h h'.1

theorem RWMutex.RUnlock_eq_some (mu mu' : RWMutex) :
    mu.RUnlock = some mu' ↔ 0 < mu.readers ∧ mu' = { mu with readers := mu.readers - 1 } := by
  unfold RWMutex.RUnlock
  split
  · rename_i h
    simp only [Option.some.injEq]
    exact ⟨fun h' => ⟨h, h'.symm⟩, fun h' => h'.2.symm⟩
  · rename_i h
    simp only [reduceCtorEq, false_iff]
    exact fun h' => h h'.1

@[simp]
theorem Sys.taskDone_runPc (s : Sys) (t : Task) (e : Option GoError) :
    (s.taskDone t e).runPc = s.runPc := by
  obtain ⟨_, _, _, _, g, _, _, _, _, _⟩ := s
  cases e <;> cases g <;> rfl

@[simp]
theorem Sys.taskDone_cfg (s : Sys) (t : Task) (e : Option GoError) :
    (s.taskDone t e).cfg = s.cfg := by
  obtain ⟨_, _, _, _, g, _, _, _, _, _⟩ := s
  cases e <;> cases g <;> rfl

@[simp]
theorem Sys.taskDone_mu (s : Sys) (t : Task) (e : Option GoError) :
    (s.taskDone t e).mu = s.mu := by
  obtain ⟨_, _, _, _, g, _, _, _, _, _⟩ := s
  cases e <;> cases g <;> rfl

@[simp]
theorem Sys.taskDone_refresher (s : Sys) (t : Task) (e : Option GoError) :
    (s.taskDone t e).refresher = s.refresher := by
  obtain ⟨_, _, _, _, g, _, _, _, _, _⟩ := s
  cases e <;> cases g <;> rfl

@[simp]
theorem Sys.taskDone_reporter (s : Sys) (t : Task) (e : Option GoError) :
    (s.taskDone t e).reporter = s.reporter := by
  obtain ⟨_, _, _, _, g, _, _, _, _, _⟩ := s
  cases e <;> cases g <;> rfl

@[simp]
theorem Sys.taskDone_refTick (s : Sys) (t : Task) (e : Option GoError) :
    (s.taskDone t e).refTick = s.refTick := by
  obtain ⟨_, _, _, _, g, _, _, _, _, _⟩ := s
  cases e <;> cases g <;> rfl

@[simp]
theorem Sys.taskDone_repTick (s : Sys) (t : Task) (e : Option GoError) :
    (s.taskDone t e).repTick = s.repTick := by
  obtain ⟨_, _, _, _, g, _, _, _, _, _⟩ := s
  cases e <;> cases g <;> rfl

@[simp]
theorem Sys.taskDone_trace (s : Sys) (t : Task) (e : Option GoError) :
    (s.taskDone t e).trace = .taskReturn t e :: s.trace := by
  obtain ⟨_, _, _, _, g, _, _, _, _, _⟩ := s
  cases e <;> cases g <;> rfl

theorem Sys.taskDone_gErr (s : Sys) (t : Task) (e : Option GoError) :
    (s.taskDone t e).gErr = match s.gErr with
      | some g => some g
      | none => e := by
  obtain ⟨_, _, _, _, g, _, _, _, _, _⟩ := s
  cases e <;> cases g <;> rfl

theorem invMu_init : InvMu Sys.init := by
  constructor <;> simp [Sys.init, RefresherPc.holdsLock, ReporterPc.holdsRLock]

theorem invMu_step (s : Sys) (a : Act) (s' : Sys) (h : InvMu s) (hs : step s a = some s') :
    InvMu s' := by
  obtain ⟨h1, h2, h3, h4, h5, h6, h7⟩ := h
  cases a <;> simp only [AzcfgLab.step] at hs <;> (repeat' split at hs) <;>
    simp only [Option.some.injEq, reduceCtorEq] at hs <;> subst hs <;>
    constructor <;>
    simp_all [Sys.record, Sys.taskDone_gErr, RefresherPc.holdsLock, ReporterPc.holdsRLock,
      RWMutex.Lock_eq_some, RWMutex.Unlock_eq_some, RWMutex.RLock_eq_some,
      RWMutex.RUnlock_eq_some]

theorem firstError_append_single (l : List (Option GoError)) (x : Option GoError) :
    firstError (l ++ [x]) = match firstError l with
      | some g => some g
      | none => x := by
  induction l with
  | nil => cases x <;> rfl
  | cons a l ih => cases a <;> simp [firstError, ih]

theorem invGroup_init : InvGroup Sys.init := by
  constructor <;> simp [Sys.init, taskResults, firstError, RefresherPc.result, ReporterPc.result]

theorem invGroup_step (s : Sys) (a : Act) (s' : Sys) (hm : InvMu s) (h : InvGroup s)
    (hs : step s a = some s') : InvGroup s' := by
  obtain ⟨h1, h2, h3, h4, h5⟩ := h
  have hc := hm.cred
  have hst := hm.started
  clear hm
  obtain ⟨runPc, cancelled, cfg, mu, gErr, refresher, reporter, refTick, repTick, trace⟩ := s
  simp only at h1 h2 h3 h4 h5 hc hst
  cases a <;> simp only [AzcfgLab.step] at hs <;> (repeat' split at hs) <;>
    simp only [Option.some.injEq, reduceCtorEq] at hs <;> subst hs <;> subst_vars
  all_goals constructor
  all_goals simp only [Sys.record, Sys.taskDone_gErr, Sys.taskDone_trace,
    Sys.taskDone_refresher, Sys.taskDone_reporter, Sys.taskDone_runPc, taskResults,
    firstError_append_single]
  all_goals first | assumption | skip
  all_goals (try (simp_all [RefresherPc.result, ReporterPc.result, firstError]; done))
  all_goals (rw [← h4]; cases firstError (taskResults trace) <;> rfl)

theorem newConfig_eq (parse : config → config × Option GoError) :
    newConfig parse = match (parse {}).2 with
      | some e => (none, some (Errorf "failed to parse config: " e))
      | none => (some (parse {}).1, none) := by
  unfold newConfig
  rcases hp : parse {} with ⟨c, e⟩
  cases e <;> simp [hp]

theorem newConfig_shape (parse : config → config × Option GoError) :
    ((∃ c, (newConfig parse).1 = some c) ∧ (newConfig parse).2 = none) ∨
      ((newConfig parse).1 = none ∧ ∃ e, (newConfig parse).2 = some e) := by
  rw [newConfig_eq]
  cases (parse {}).2 <;> simp

theorem invCfg_init : InvCfg Sys.init := by
  constructor <;> simp [Sys.init, wholeReads, lockCount, fetchCount]

theorem invCfg_step (s : Sys) (a : Act) (s' : Sys) (hm : InvMu s) (h : InvCfg s)
    (hs : step s a = some s') : InvCfg s' := by
  obtain ⟨h1, h2, h3, h4⟩ := h
  have hf := hm.fresh
  have hc := hm.cred
  have hst := hm.started
  cases a <;> simp only [AzcfgLab.step] at hs <;> (repeat' split at hs) <;>
    simp only [Option.some.injEq, reduceCtorEq] at hs <;> subst hs <;>
    constructor <;>
    simp_all [Sys.record, installed, wholeReads, lockCount, fetchCount]
  intro cfg err h
  rcases h with ⟨rfl, rfl⟩ | h
  · exact newConfig_shape _
  · exact h4 _ _ h

theorem inv_init : Inv Sys.init := ⟨invMu_init, invGroup_init, invCfg_init⟩

theorem inv_step (s : Sys) (a : Act) (s' : Sys) (h : Inv s) (hs : step s a = some s') :
    Inv s' :=
  ⟨invMu_step s a s' h.mu hs, invGroup_step s a s' h.mu h.group hs,
    invCfg_step s a s' h.mu h.cfg hs⟩

theorem Reachable.inv {s : Sys} (h : Reachable s) : Inv s :=
  reachable_inv Inv inv_init inv_step s h

theorem installed_source (tr : List Event) :
    installed tr = some {} ∨ ∃ err, Event.fetch (installed tr) err ∈ tr := by
  induction tr with
  | nil => exact Or.inl rfl
  | cons ev pre ih =>
    cases ev <;> simp only [installed, List.mem_cons, reduceCtorEq, false_or] <;>
      first
        | exact ih
        | exact Or.inr ⟨_, Or.inl rfl⟩

theorem wholeReads_at (post pre : List Event) (v : Option config) (t : String)
    (h : wholeReads (post ++ Event.emit v t :: pre)) : v = installed pre ∧ t = reportText v := by
  induction post with
  | nil => exact h.1
  | cons ev post ih =>
    cases ev <;> first
      | exact ih h
      | exact ih h.2

theorem pre_init : Pre Sys.init := ⟨rfl, rfl, rfl, rfl, rfl, rfl⟩

theorem pre_step {s s' : Sys} {a : Act} (h : Pre s) (hs : step s a = some s') :
    (a = .signal ∧ Pre s') ∨ (a = .credential none ∧ s'.runPc = .wait ∧ s'.refresher = .select) ∨
      ∃ e, a = .credential (some e) ∧ Dead e s' := by
  obtain ⟨h1, h2, h3, h4, h5, h6⟩ := h
  cases a <;> simp only [AzcfgLab.step] at hs <;> (repeat' split at hs) <;>
    simp only [Option.some.injEq, reduceCtorEq] at hs <;> subst hs <;>
    simp_all [Pre, Dead]

theorem dead_step {e : GoError} {s : Sys} (h : Dead e s) (a : Act) : step s a = none := by
  obtain ⟨h1, h2, h3, h4, h5, h6⟩ := h
  cases a <;> simp [AzcfgLab.step, h1, h2, h3]

theorem dead_exec {e : GoError} {s s' : Sys} (h : Dead e s) {acts : List Act}
    (he : exec s acts = some s') : acts = [] ∧ s' = s := by
  cases acts with
  | nil => exact ⟨rfl, by simpa [AzcfgLab.exec] using he.symm⟩
  | cons a as => simp [AzcfgLab.exec, dead_step h a] at he

theorem started_step {s s' : Sys} {a : Act} (h : s.runPc ≠ .credential)
    (hs : step s a = some s') : s'.runPc ≠ .credential ∧ ∀ x, a ≠ .credential x := by
  cases a <;> simp only [AzcfgLab.step] at hs <;> (repeat' split at hs) <;>
    simp only [Option.some.injEq, reduceCtorEq] at hs <;> subst hs <;>
    simp_all [Sys.record]

theorem started_exec {s s' : Sys} {acts : List Act} (h : s.runPc ≠ .credential)
    (he : exec s acts = some s') : ∀ x, Act.credential x ∉ acts := by
  induction acts generalizing s with
  | nil => simp
  | cons a as ih =>
    simp only [AzcfgLab.exec] at he
    cases hs : AzcfgLab.step s a with
    | none => simp [hs] at he
    | some s1 =>
      rw [hs] at he
      obtain ⟨h1, h2⟩ := started_step h hs
      intro x hx
      rcases List.mem_cons.1 hx with hx | hx
      · exact h2 x hx.symm
      · exact ih h1 he x hx

theorem refresher_started_step (s : Sys) (a : Act) (s' : Sys)
    (h : s.refresher ≠ .notStarted) (hs : step s a = some s') : s'.refresher ≠ .notStarted := by
  cases a <;> simp only [AzcfgLab.step] at hs <;> (repeat' split at hs) <;>
    simp only [Option.some.injEq, reduceCtorEq] at hs <;> subst hs <;>
    simp_all [Sys.record]

theorem Pre.exec_failed {s s' : Sys} {acts : List Act} {e : GoError} (h : Pre s)
    (he : exec s acts = some s') (hm : Act.credential (some e) ∈ acts) : Dead e s' := by
  induction acts generalizing s with
  | nil => simp at hm
  | cons a as ih =>
    simp only [AzcfgLab.exec] at he
    cases hs : AzcfgLab.step s a with
    | none => simp [hs] at he
    | some s1 =>
      rw [hs] at he
      rcases pre_step h hs with ⟨rfl, hp⟩ | ⟨rfl, hw, _⟩ | ⟨e', rfl, hd⟩
      · rcases List.mem_cons.1 hm with hx | hx
        · cases hx
        · exact ih hp he hx
      · rcases List.mem_cons.1 hm with hx | hx
        · cases hx
        · exact absurd hx (started_exec (by simp [hw]) he _)
      · obtain ⟨has, hs'⟩ := dead_exec hd he
        subst has hs'
        rcases List.mem_cons.1 hm with hx | hx
        · cases hx
          exact hd
        · simp at hx

theorem Pre.exec_started {s s' : Sys} {acts : List Act} (h : Pre s)
    (he : exec s acts = some s') (hm : Act.credential none ∈ acts) :
    s'.refresher ≠ .notStarted := by
  induction acts generalizing s with
  | nil => simp at hm
  | cons a as ih =>
    simp only [AzcfgLab.exec] at he
    cases hs : AzcfgLab.step s a with
    | none => simp [hs] at he
    | some s1 =>
      rw [hs] at he
      rcases pre_step h hs with ⟨rfl, hp⟩ | ⟨rfl, _, hr⟩ | ⟨e', rfl, hd⟩
      · rcases List.mem_cons.1 hm with hx | hx
        · cases hx
        · exact ih hp he hx
      · exact exec_inv (fun s => s.refresher ≠ .notStarted) refresher_started_step as s1 s'
          (by simp [hr]) he
      · obtain ⟨has, hs'⟩ := dead_exec hd he
        subst has hs'
        rcases List.mem_cons.1 hm with hx | hx
        · cases hx
        · simp at hx

theorem failing_step (e : GoError) (n : Nat) (s : Sys) (a : Act) (s' : Sys)
    (h : Failing e n s) (hs : step s a = some s') : Failing e n s' := by
  refine ⟨inv_step s a s' h.inv hs, ?_, ?_⟩
  · have hc := h.count
    have hp := h.pc
    cases a <;> simp only [AzcfgLab.step] at hs <;> (repeat' split at hs) <;>
      simp only [Option.some.injEq, reduceCtorEq] at hs <;> subst hs <;>
      simp_all [Sys.record, fetchCount]
  · have hp := h.pc
    have hcred := h.inv.mu.cred
    cases a <;> simp only [AzcfgLab.step] at hs <;> (repeat' split at hs) <;>
      simp only [Option.some.injEq, reduceCtorEq] at hs <;> subst hs <;>
      simp_all [Sys.record]

theorem Failing.result {e : GoError} {n : Nat} {s : Sys} (h : Failing e n s)
    (r : Option GoError) (hr : s.runPc = .returned r) :
    r = some (Errorf "failed to create config: " (Errorf "failed to parse config: " e)) := by
  have hst : s.refresher ≠ .notStarted := by
    rcases h.pc with hp | hp | hp <;> simp [hp]
  obtain ⟨hg, ⟨r1, h1⟩, _⟩ := h.inv.group.ret r hr hst
  have he := h.inv.group.refErr
  rw [h1] at he
  rcases h.pc with hp | hp | hp <;> rw [h1] at hp
  · cases hp
  · cases hp
  · simp only [RefresherPc.returned.injEq] at hp
    rw [hg, he, hp]

theorem wrap_message (e : GoError) :
    (Errorf "failed to create config: " (Errorf "failed to parse config: " e)).Error =
      "failed to create config: failed to parse config: " ++ e.Error := by
  simp only [Errorf, GoError.Error, ← String.append_assoc]
  rfl

theorem Failing.drains {e : GoError} {s : Sys} (hi : Inv s)
    (hpc : s.refresher = .unlock (some (Errorf "failed to parse config: " e))) :
    (∃ s3, exec s [.refUnlock, .refCheck] = some s3 ∧
      s3.refresher = .returned
        (some (Errorf "failed to create config: " (Errorf "failed to parse config: " e))) ∧
      s3.cancelled = true) ∧
    ∃ s4, exec s ([.refUnlock, .refCheck] ++ s.reporter.drain ++ [.wait]) = some s4 ∧
      s4.runPc = .returned
        (some (Errorf "failed to create config: " (Errorf "failed to parse config: " e))) := by
  have hw := hi.mu.writer
  have hr := hi.mu.readers
  have hx := hi.mu.excl
  have hst := hi.mu.started
  have hcred := hi.mu.cred
  have hg := hi.group.refErr
  have hret := hi.group.ret
  clear hi
  obtain ⟨runPc, cancelled, cfg, ⟨w, rd⟩, gErr, refresher, reporter, refTick, repTick, trace⟩ := s
  simp only at hpc hw hr hx hst hcred hg hret
  subst hpc
  simp only [RefresherPc.holdsLock, true_implies] at hw hx hg
  simp only [hx, Bool.false_eq_true, if_false] at hr
  subst hw hr hg
  cases runPc with
  | credential => simp at hcred
  | returned r => simpa using hret r
  | wait =>
    cases reporter with
    | notStarted => simp at hst
    | print => simp [ReporterPc.holdsRLock] at hx
    | runlock => simp [ReporterPc.holdsRLock] at hx
    | select => exact ⟨⟨_, rfl, rfl, rfl⟩, ⟨_, rfl, rfl⟩⟩
    | rlock => exact ⟨⟨_, rfl, rfl, rfl⟩, ⟨_, rfl, rfl⟩⟩
    | returned r => exact ⟨⟨_, rfl, rfl, rfl⟩, ⟨_, rfl, rfl⟩⟩

theorem toFetch_exec : exec Sys.init toFetch = some atFetch := by
  decide

theorem toPrint_exec : exec Sys.init toPrint = some atPrint := by
  decide

theorem toFailedRun_exec : exec Sys.init toFailedRun = some failedRun := by
  decide

/-! ## The claims -/

/-- C1, as written, fails: on the first tick the shared `cfg` holds the snapshot of line 35;
the fetch fails; after the tick, with the Refresher returned, `cfg` is nil, not the
snapshot it held before the tick. -/
theorem C1_counterexample :
    exec Sys.init toFetch = some atFetch ∧ atFetch.cfg = some {} ∧
    (exec atFetch [.refFetch parseFail, .refUnlock, .refCheck]).map
        (fun s => (s.cfg, s.refresher, fetchCount s.trace)) =
      some (none, .returned (some boomConfig), 1) := by
  decide

/-- C1, amended: once the loops run, the shared `cfg` is the empty snapshot of line 35, or a
snapshot some earlier successful fetch returned whole, or nil after a fetch that failed.
A tick assigns to `cfg` what `newConfig` returned: the fetched snapshot when the fetch
succeeds, nil when it fails (never the partly filled struct, and not the snapshot held
before). -/
theorem C1_shared_snapshot (s : Sys) (h : Reachable s) (hst : s.refresher ≠ .notStarted) :
    (s.cfg = some {} ∨ (∃ c, s.cfg = some c ∧ Event.fetch (some c) none ∈ s.trace) ∨
      (s.cfg = none ∧ ∃ e, Event.fetch none (some e) ∈ s.trace)) ∧
    ∀ parse s', step s (.refFetch parse) = some s' →
      ((parse {}).2 = none → s'.cfg = some (parse {}).1) ∧
      (∀ e, (parse {}).2 = some e → s'.cfg = none) := by
  have hi := h.inv
  constructor
  · have hc := hi.cfg.cfg hst
    rcases installed_source s.trace with h0 | ⟨err, hm⟩
    · exact Or.inl (hc.trans h0)
    · rw [← hc] at hm
      rcases hi.cfg.shapes _ _ hm with ⟨c, hc1, rfl⟩ | ⟨hc1, e, rfl⟩
      · exact Or.inr (Or.inl ⟨c, hc1, hc1 ▸ hm⟩)
      · exact Or.inr (Or.inr ⟨hc1, e, hc1 ▸ hm⟩)
  · intro parse s' hs
    simp only [step] at hs
    split at hs
    · simp only [Option.some.injEq] at hs
      subst hs
      simp only [Sys.record, newConfig_eq]
      constructor
      · intro hp
        simp [hp]
      · intro e hp
        simp [hp]
    · cases hs

/-- C1, amended, at the state in which the first fetch is about to run: a failing fetch
leaves nil in `cfg`. -/
theorem C1_shared_snapshot_witness :
    Reachable atFetch ∧ atFetch.refresher ≠ .notStarted ∧
    step atFetch (.refFetch parseFail) = some afterFailedFetch ∧ afterFailedFetch.cfg = none :=
  ⟨⟨toFetch, toFetch_exec⟩, by decide, by decide,
    ((C1_shared_snapshot atFetch ⟨toFetch, toFetch_exec⟩ (by decide)).2 parseFail
      afterFailedFetch (by decide)).2 (.external "boom") rfl⟩

/-- C2, as written, fails: for the snapshot a, b, c, d the Reporter's text is not the string
of the claim; it ends with one more newline, the one that closes the format. -/
theorem C2_counterexample :
    reportText (some abcd) ≠
      "Config:\n\tKeyVaultFoo=a\n\tKeyVaultBar=b\n\tAppConfigFoo=c\n\tAppConfigBar=d" ∧
    (step atPrint .repPrint).map (fun s => s.trace.head?) =
      some (some (.emit (some abcd)
        "Config:\n\tKeyVaultFoo=a\n\tKeyVaultBar=b\n\tAppConfigFoo=c\n\tAppConfigBar=d\n")) := by
  decide

/-- C2, amended: for a snapshot with the values a, b, c, d the text the Reporter emits on a
tick is the header line, then the four tab-indented Name=Value lines in declared order,
then one closing newline, and nothing else. -/
theorem C2_report_text (s : Sys) (a b c d : String) (hpc : s.reporter = .print)
    (hcfg : s.cfg = some ⟨a, b, c, d⟩) :
    ∃ s', step s .repPrint = some s' ∧
      s'.trace = .emit s.cfg ("Config:\n\tKeyVaultFoo=" ++ a ++ "\n\tKeyVaultBar=" ++ b
        ++ "\n\tAppConfigFoo=" ++ c ++ "\n\tAppConfigBar=" ++ d ++ "\n") :: s.trace := by
  have ht : reportText s.cfg = "Config:\n\tKeyVaultFoo=" ++ a ++ "\n\tKeyVaultBar=" ++ b
      ++ "\n\tAppConfigFoo=" ++ c ++ "\n\tAppConfigBar=" ++ d ++ "\n" := by
    rw [hcfg]
    simp only [reportText, verbS, config.String, String.append_assoc]
    rfl
  refine ⟨{ s with reporter := .runlock }.record (.emit s.cfg (reportText s.cfg)), ?_, ?_⟩
  · simp only [step, hpc]
  · simp only [Sys.record, ht]

/-- C2, amended, at the snapshot a, b, c, d. -/
theorem C2_report_text_witness :
    atPrint.reporter = .print ∧ atPrint.cfg = some abcd ∧
    ∃ s', step atPrint .repPrint = some s' ∧
      s'.trace = .emit atPrint.cfg ("Config:\n\tKeyVaultFoo=" ++ "a" ++ "\n\tKeyVaultBar=" ++ "b"
        ++ "\n\tAppConfigFoo=" ++ "c" ++ "\n\tAppConfigBar=" ++ "d" ++ "\n") :: atPrint.trace :=
  ⟨rfl, rfl, C2_report_text atPrint "a" "b" "c" "d" rfl rfl⟩

/-- C3: when the credential was obtained, `g.Wait()` returns as soon as both tasks have
returned, and what `run` then returns is decided by the two results: nil if both are
nil, otherwise the first error a task returned. -/
theorem C3_run_result (acts : List Act) (s : Sys) (he : exec Sys.init acts = some s)
    (hc : Act.credential none ∈ acts) :
    (∀ r1 r2, s.runPc = .wait → s.refresher = .returned r1 → s.reporter = .returned r2 →
      ∃ s', step s .wait = some s' ∧
        s'.runPc = .returned (firstError (taskResults s.trace))) ∧
    ∀ r, s.runPc = .returned r →
      ∃ r1 r2, s.refresher = .returned r1 ∧ s.reporter = .returned r2 ∧
        (taskResults s.trace = [r1, r2] ∨ taskResults s.trace = [r2, r1]) ∧
        r = firstError (taskResults s.trace) ∧ (r1 = none → r2 = none → r = none) := by
  have hst := Pre.exec_started pre_init he hc
  have hi := (Reachable.inv ⟨acts, he⟩).group
  constructor
  · intro r1 r2 hw h1 h2
    refine ⟨{ s with runPc := .returned s.gErr }, by simp [step, hw, h1, h2], ?_⟩
    simp [hi.gerr]
  · intro r hr
    obtain ⟨hg, ⟨r1, h1⟩, ⟨r2, h2⟩⟩ := hi.ret r hr hst
    have hres := hi.results
    simp only [h1, h2, RefresherPc.result, ReporterPc.result, List.singleton_append] at hres
    refine ⟨r1, r2, h1, h2, hres, hg.trans hi.gerr, ?_⟩
    rintro rfl rfl
    rw [hg, hi.gerr]
    rcases hres with h | h <;> rw [h] <;> rfl

/-- C3 at the run in which the first fetch fails: `run` returns the Refresher's error. -/
theorem C3_run_result_witness :
    exec Sys.init toFailedRun = some failedRun ∧ Act.credential none ∈ toFailedRun ∧
    ∃ r1 r2, failedRun.refresher = .returned r1 ∧ failedRun.reporter = .returned r2 ∧
      (taskResults failedRun.trace = [r1, r2] ∨ taskResults failedRun.trace = [r2, r1]) ∧
      some boomConfig = firstError (taskResults failedRun.trace) ∧
      (r1 = none → r2 = none → some boomConfig = none) :=
  ⟨toFailedRun_exec, List.mem_cons_self _ _,
    (C3_run_result toFailedRun failedRun toFailedRun_exec (List.mem_cons_self _ _)).2
      (some boomConfig) rfl⟩

/-- C4: if the credential call fails with `e`, that step makes `run` return the error
whose message is "failed to create azure credential: " followed by the message of `e`; and
in every execution with that step neither loop has started and nothing is on record, no
fetch, no lock, no output. -/
theorem C4_credential_failure (e : GoError) :
    (step Sys.init (.credential (some e))).map (fun s => s.runPc) =
      some (.returned (some (Errorf "failed to create azure credential: " e))) ∧
    (Errorf "failed to create azure credential: " e).Error =
      "failed to create azure credential: " ++ e.Error ∧
    ∀ acts s, exec Sys.init acts = some s → Act.credential (some e) ∈ acts →
      s.runPc = .returned (some (Errorf "failed to create azure credential: " e)) ∧
      s.refresher = .notStarted ∧ s.reporter = .notStarted ∧ s.trace = [] := by
  refine ⟨rfl, rfl, ?_⟩
  intro acts s he hm
  obtain ⟨h1, h2, h3, h4, _, _⟩ := Pre.exec_failed pre_init he hm
  exact ⟨h1, h2, h3, h4⟩

/-- C4 at an execution in which a signal comes first and the credential call then fails. -/
theorem C4_credential_failure_witness :
    exec Sys.init [.signal, .credential (some (.external "boom"))] = some noCredential ∧
    noCredential.refresher = .notStarted ∧ noCredential.reporter = .notStarted ∧
    noCredential.trace = [] :=
  ⟨by decide,
    ((C4_credential_failure (.external "boom")).2.2 [.signal, .credential (some (.external "boom"))]
      noCredential (by decide) (List.mem_cons_of_mem _ (List.mem_cons_self _ _))).2⟩

/-- C5: if the fetch of a tick fails with `e`, the step is taken and from then on, whatever
the schedule, no further fetch runs and the Refresher only moves on to its return, with
the error whose message is "failed to create config: failed to parse config: " followed by
the message of `e`; its own next two steps take it there and cancel the context; `run`,
when it returns, returns that error, and there is a schedule on which it does. -/
theorem C5_fetch_failure (s : Sys) (h : Reachable s) (hpc : s.refresher = .fetch)
    (parse : config → config × Option GoError) (e : GoError) (hp : (parse {}).2 = some e) :
    ∃ s1, step s (.refFetch parse) = some s1 ∧
      (∀ acts s2, exec s1 acts = some s2 →
        fetchCount s2.trace = fetchCount s1.trace ∧
        (s2.refresher = .unlock (some (Errorf "failed to parse config: " e)) ∨
          s2.refresher = .check (some (Errorf "failed to parse config: " e)) ∨
          s2.refresher = .returned
            (some (Errorf "failed to create config: " (Errorf "failed to parse config: " e)))) ∧
        ∀ r, s2.runPc = .returned r →
          r = some (Errorf "failed to create config: " (Errorf "failed to parse config: " e))) ∧
      (∃ s3, exec s1 [.refUnlock, .refCheck] = some s3 ∧
        s3.refresher = .returned
          (some (Errorf "failed to create config: " (Errorf "failed to parse config: " e))) ∧
        s3.cancelled = true) ∧
      (∃ s4, exec s1 ([.refUnlock, .refCheck] ++ s1.reporter.drain ++ [.wait]) = some s4 ∧
        s4.runPc = .returned
          (some (Errorf "failed to create config: " (Errorf "failed to parse config: " e)))) ∧
      (Errorf "failed to create config: " (Errorf "failed to parse config: " e)).Error =
        "failed to create config: failed to parse config: " ++ e.Error := by
  have hi := h.inv
  obtain ⟨s1, hs1, hpc1⟩ : ∃ s1, step s (.refFetch parse) = some s1 ∧
      s1.refresher = .unlock (some (Errorf "failed to parse config: " e)) := by
    simp [step, hpc, newConfig_eq, hp, Sys.record]
  have hi1 := inv_step _ _ _ hi hs1
  refine ⟨s1, hs1, ?_, (Failing.drains hi1 hpc1).1, (Failing.drains hi1 hpc1).2, wrap_message e⟩
  have hf : Failing e (fetchCount s1.trace) s1 := ⟨hi1, rfl, Or.inl hpc1⟩
  intro acts s2 he
  have hf2 := exec_inv (Failing e _) (failing_step e _) acts _ s2 hf he
  exact ⟨hf2.count, hf2.pc, hf2.result⟩

/-- C5 at the first tick, with a fetch that fails with "boom". -/
theorem C5_fetch_failure_witness :
    Reachable atFetch ∧ atFetch.refresher = .fetch ∧ (parseFail {}).2 = some (.external "boom") ∧
    (Errorf "failed to create config: " (Errorf "failed to parse config: "
      (.external "boom"))).Error = "failed to create config: failed to parse config: " ++ "boom" :=
  ⟨⟨toFetch, toFetch_exec⟩, rfl, rfl,
    (C5_fetch_failure atFetch ⟨toFetch, toFetch_exec⟩ rfl parseFail (.external "boom")
      rfl).choose_spec.2.2.2.2⟩

/-- C6: the process outcome depends on the result of `run` alone: exit status 0 with
nothing on standard error exactly when `run` returned nil; for an error, exit status 1 and
on standard error the message of the error followed by one newline. -/
theorem C6_main_outcome (r : Option GoError) (e : GoError) :
    (((main r).exitCode = 0 ∧ (main r).stderr = "") ↔ r = none) ∧
      (main (some e)).exitCode = 1 ∧ (main (some e)).stderr = e.Error ++ "\n" := by
  refine ⟨?_, rfl, rfl⟩
  cases r <;> simp [main]

/-- C7: in every reachable state the Reporter is not inside its read critical section while
the Refresher is inside its write critical section; and every read on record rendered
one whole value of `cfg`: the snapshot of line 35 or what one single run of `newConfig`
returned, never a mix. -/
theorem C7_mutual_exclusion (s : Sys) (h : Reachable s) :
    ¬ (s.reporter.holdsRLock = true ∧ s.refresher.holdsLock = true) ∧
    ∀ post pre v t, s.trace = post ++ Event.emit v t :: pre →
      t = reportText v ∧ (v = some {} ∨ ∃ err, Event.fetch v err ∈ pre) := by
  have hi := h.inv
  refine ⟨fun hh => ?_, ?_⟩
  · have := hi.mu.excl hh.2
    rw [hh.1] at this
    cases this
  · intro post pre v t ht
    have hr := hi.cfg.reads
    rw [ht] at hr
    obtain ⟨hv, htx⟩ := wholeReads_at post pre v t hr
    refine ⟨htx, ?_⟩
    rw [hv]
    exact installed_source pre

/-- C7 at the state after the first read: the read rendered the snapshot of the one fetch
before it. -/
theorem C7_mutual_exclusion_witness :
    Reachable afterRead ∧
    ¬ (afterRead.reporter.holdsRLock = true ∧ afterRead.refresher.holdsLock = true) ∧
    (some abcd = some {} ∨
      ∃ err, Event.fetch (some abcd) err ∈ [.rlock, .unlock, .fetch (some abcd) none, .lock]) :=
  ⟨⟨toPrint ++ [.repPrint], by decide⟩,
    (C7_mutual_exclusion afterRead ⟨toPrint ++ [.repPrint], by decide⟩).1,
    ((C7_mutual_exclusion afterRead ⟨toPrint ++ [.repPrint], by decide⟩).2 [] _ _ _ rfl).2⟩

/-- C8, as written, fails: the signal has fired, the Refresher waits at its `select` with a
tick pending, and its next step may be the ticker case: it goes on to lock and fetch. -/
theorem C8_counterexample :
    exec Sys.init [.credential none, .refTickFire, .signal] = some cancelledWithTick ∧
    cancelledWithTick.cancelled = true ∧ cancelledWithTick.refresher = .select ∧
    (step cancelledWithTick .refSelectTick).map (fun s => s.refresher) = some .lock ∧
    (exec cancelledWithTick [.refSelectTick, .refLock, .refFetch parseOk]).map (fun s => s.trace) =
      some [.fetch (some abcd) none, .lock] := by
  decide

/-- C8, amended: once the signal has fired, a loop waiting at its `select` can always exit
with no error, recording nothing but its return; if none of its ticks is pending that is
its only next step; if a tick is pending at the same moment the `select` may also take
the ticker case and the loop begins one more iteration. -/
theorem C8_cancelled_select (s : Sys) (hc : s.cancelled = true) :
    (s.refresher = .select →
      (∃ s', step s .refSelectDone = some s' ∧ s'.refresher = .returned none ∧
        s'.trace = .taskReturn .refresher none :: s.trace) ∧
      (s.refTick = false → ∀ a s', step s a = some s' → s'.refresher ≠ s.refresher →
        s'.refresher = .returned none ∧ s'.trace = .taskReturn .refresher none :: s.trace) ∧
      (s.refTick = true → ∃ s', step s .refSelectTick = some s' ∧ s'.refresher = .lock)) ∧
    (s.reporter = .select →
      (∃ s', step s .repSelectDone = some s' ∧ s'.reporter = .returned none ∧
        s'.trace = .taskReturn .reporter none :: s.trace) ∧
      (s.repTick = false → ∀ a s', step s a = some s' → s'.reporter ≠ s.reporter →
        s'.reporter = .returned none ∧ s'.trace = .taskReturn .reporter none :: s.trace) ∧
      (s.repTick = true → ∃ s', step s .repSelectTick = some s' ∧ s'.reporter = .rlock)) := by
  constructor
  · intro hp
    refine ⟨by simp [step, hp, hc], ?_, fun ht => by simp [step, hp, ht]⟩
    intro ht a s' hs hne
    cases a <;> simp only [step] at hs <;> (repeat' split at hs) <;>
      simp only [Option.some.injEq, reduceCtorEq] at hs <;> subst hs <;>
      simp_all [Sys.record]
  · intro hp
    refine ⟨by simp [step, hp, hc], ?_, fun ht => by simp [step, hp, ht]⟩
    intro ht a s' hs hne
    cases a <;> simp only [step] at hs <;> (repeat' split at hs) <;>
      simp only [Option.some.injEq, reduceCtorEq] at hs <;> subst hs <;>
      simp_all [Sys.record]

/-- C8, amended, at the state with the signal fired and a Refresher tick pending: the
Refresher may take the tick, the Reporter, with no tick pending, can only exit. -/
theorem C8_cancelled_select_witness :
    cancelledWithTick.cancelled = true ∧
    (∃ s', step cancelledWithTick .refSelectTick = some s' ∧ s'.refresher = .lock) ∧
    (∀ a s', step cancelledWithTick a = some s' → s'.reporter ≠ cancelledWithTick.reporter →
      s'.reporter = .returned none ∧
        s'.trace = .taskReturn .reporter none :: cancelledWithTick.trace) :=
  ⟨rfl, ((C8_cancelled_select cancelledWithTick rfl).1 rfl).2.2 rfl,
    ((C8_cancelled_select cancelledWithTick rfl).2 rfl).2.1 rfl⟩

/-- C9, as written, fails: on the first tick the Refresher holds the write lock when
`newConfig` is about to run, whether the fetch then succeeds or fails; with a failing
fetch the record of the tick is the lock, then the fetch. -/
theorem C9_counterexample :
    exec Sys.init toFetch = some atFetch ∧ atFetch.mu.writer = true ∧
    (step atFetch (.refFetch parseOk)).isSome = true ∧
    step atFetch (.refFetch parseFail) = some afterFailedFetch ∧
    afterFailedFetch.trace = [.fetch none (some boomParse), .lock] := by
  decide

/-- C9, amended: on each tick the Refresher acquires the write lock first and runs
`newConfig` while holding it: whenever the fetch step is taken the lock is held, it was
acquired on this very tick (one lock for every fetch, this one included, whatever the
fetch returns), it is still held after the fetch, and the step after that releases it. -/
theorem C9_fetch_under_lock (s : Sys) (h : Reachable s)
    (parse : config → config × Option GoError) (s' : Sys)
    (hs : step s (.refFetch parse) = some s') :
    s.mu.writer = true ∧ lockCount s.trace = fetchCount s.trace + 1 ∧
    s'.mu.writer = true ∧ lockCount s'.trace = fetchCount s'.trace ∧
    ∃ t, step s' .refUnlock = some t ∧ t.mu.writer = false := by
  have hi := h.inv
  have hw := hi.mu.writer
  have hl := hi.cfg.locks
  simp only [step] at hs
  split at hs
  · rename_i hpc
    simp only [Option.some.injEq] at hs
    subst hs
    simp [hpc, RefresherPc.holdsLock] at hw hl
    simp [step, Sys.record, hw, hl, RWMutex.Unlock, lockCount, fetchCount]
  · cases hs

/-- C9, amended, at the first tick with a failing fetch. -/
theorem C9_fetch_under_lock_witness :
    Reachable atFetch ∧ step atFetch (.refFetch parseFail) = some afterFailedFetch ∧
    atFetch.mu.writer = true ∧ lockCount atFetch.trace = fetchCount atFetch.trace + 1 :=
  ⟨⟨toFetch, toFetch_exec⟩, by decide,
    (C9_fetch_under_lock atFetch ⟨toFetch, toFetch_exec⟩ parseFail afterFailedFetch
      (by decide)).1,
    (C9_fetch_under_lock atFetch ⟨toFetch, toFetch_exec⟩ parseFail afterFailedFetch
      (by decide)).2.1⟩

/-- C10: in every reachable state a Refresher that waits at its `select` or has returned
does not hold the write lock, and a Reporter that waits at its `select` or has returned
holds no read lock; on a tick, whatever the fetch returned, `mu.Unlock()` is the
Refresher's next step, it can be taken and releases the lock before `err` is tested; and
`mu.RUnlock()` is the Reporter's step after the print, it can be taken and releases the
read lock before the next `select`. -/
theorem C10_lock_balance (s : Sys) (h : Reachable s) :
    ((s.refresher = .select ∨ ∃ r, s.refresher = .returned r) → s.mu.writer = false) ∧
    ((s.reporter = .select ∨ ∃ r, s.reporter = .returned r) → s.mu.readers = 0) ∧
    (∀ err, s.refresher = .unlock err →
      ∃ s', step s .refUnlock = some s' ∧ s'.mu.writer = false ∧ s'.refresher = .check err) ∧
    (∀ err, s.refresher = .check err → s.mu.writer = false) ∧
    (s.reporter = .runlock →
      ∃ s', step s .repRUnlock = some s' ∧ s'.mu.readers = 0 ∧ s'.reporter = .select) := by
  have hi := h.inv.mu
  have hw := hi.writer
  have hr := hi.readers
  refine ⟨?_, ?_, ?_, ?_, ?_⟩
  · rintro (h1 | ⟨r, h1⟩) <;> simp [hw, h1, RefresherPc.holdsLock]
  · rintro (h1 | ⟨r, h1⟩) <;> simp [hr, h1, ReporterPc.holdsRLock]
  · intro err h1
    have hw1 : s.mu.writer = true := by simp [hw, h1, RefresherPc.holdsLock]
    simp [step, h1, RWMutex.Unlock, hw1, Sys.record]
  · intro err h1
    simp [hw, h1, RefresherPc.holdsLock]
  · intro h1
    have hr1 : s.mu.readers = 1 := by simp [hr, h1, ReporterPc.holdsRLock]
    simp [step, h1, RWMutex.RUnlock, hr1, Sys.record]

/-- C10 at the end of the run in which the first fetch fails, and after the first read. -/
theorem C10_lock_balance_witness :
    Reachable failedRun ∧ failedRun.mu.writer = false ∧ failedRun.mu.readers = 0 ∧
    ∃ s', step afterRead .repRUnlock = some s' ∧ s'.mu.readers = 0 ∧ s'.reporter = .select :=
  ⟨⟨toFailedRun, toFailedRun_exec⟩,
    (C10_lock_balance failedRun ⟨toFailedRun, toFailedRun_exec⟩).1 (Or.inr ⟨_, rfl⟩),
    (C10_lock_balance failedRun ⟨toFailedRun, toFailedRun_exec⟩).2.1 (Or.inr ⟨_, rfl⟩),
    (C10_lock_balance afterRead ⟨toPrint ++ [.repPrint], by decide⟩).2.2.2.2 rfl⟩

end AzcfgLab
